import Mathlib

/-
Verification of the Ashby-plots repository (plot_data.py and plot_utilities.py).

The Python code is shallowly embedded: dataframes become lists of row
structures, numeric (float) columns become exact rationals, and the Python
exceptions that the scripts can raise become an explicit error type.
Each definition is translated from the source file and line given in its
doc comment.
-/

namespace AshbyPlots

/-- Model of the Python exceptions relevant to these scripts.
A Python 3 statement of the form `raise(SomeError, msg)` raises a tuple,
which is not a `BaseException`, so the interpreter raises
`TypeError: exceptions must derive from BaseException` instead of the
named error; `typeError` models this.  `nameError n` models evaluation of
an undefined name `n`. -/
inductive PyError where
  | typeError (msg : String)
  | valueError (msg : String)
  | nameError (n : String)
deriving DecidableEq, Repr

/-! ## orthonormal_rotation (plot_data.py, lines 50-75)

A row of the merged dataframe.  The columns `E1`, `E2`, `Nu12` that the
function manipulates are explicit fields; every other column is carried in
the association list `rest` and is untouched by the function. -/

structure RRow where
  e1 : ℚ
  e2 : ℚ
  nu12 : ℚ
  rest : List (String × ℚ)
deriving DecidableEq, Repr

/-- `rotated_data_frame.rename(columns={'E1':'E2','E2':'E1'}, inplace=True)`:
after relabelling, a row's value under the label `E1` is its former `E2`
value and vice versa (plot_data.py, lines 59-65). -/
def renameSwapE1E2 (r : RRow) : RRow :=
  { r with e1 := r.e2, e2 := r.e1 }

/-- `rotated_data_frame['Nu12'] = rotated_data_frame['Nu12'] *
rotated_data_frame['E1'] / rotated_data_frame['E2']` (plot_data.py,
line 67), applied after the rename, so `E1`/`E2` here are the renamed
columns. -/
def rescaleNu12 (r : RRow) : RRow :=
  { r with nu12 := r.nu12 * r.e1 / r.e2 }

/-- The per-row effect of `orthonormal_rotation` on the copied frame:
rename-swap of the two moduli followed by the coupling-ratio rescale. -/
def rotateRow (r : RRow) : RRow :=
  rescaleNu12 (renameSwapE1E2 r)

/-- A dataframe for `orthonormal_rotation`: a list of rows. -/
abbrev RFrame := List RRow

/-- `orthonormal_rotation` (plot_data.py, lines 50-75) as a pure function
on the frame value: `pd.concat([data_frame, rotated_data_frame],
ignore_index=True, axis=0)` where `rotated_data_frame` is a copy of the
input with the rename and the `Nu12` rescale applied. -/
def orthonormal_rotation (data_frame : RFrame) : RFrame :=
  data_frame ++ data_frame.map rotateRow

/-! ### Mutation model for `orthonormal_rotation` (claim C10)

To state that the function does not mutate its argument we model Python
object identity: a heap maps references to frame values.
`data_frame.copy()` allocates a fresh reference holding an equal value
(pandas `.copy()` is a deep copy); `rename(..., inplace=True)` and the
`Nu12` column assignment mutate the frame stored at the receiver's
reference; `pd.concat` allocates a fresh frame; the final
`data_frame = ...` rebinds the local name only. -/

abbrev Heap := List (Nat × RFrame)

/-- Read the object stored at reference `r`. -/
def heapGet : Heap → Nat → Option RFrame
  | [], _ => none
  | (k, v) :: t, r => if r = k then some v else heapGet t r

/-- Store a new value at reference `r` (in-place mutation of the object). -/
def heapSet (h : Heap) (r : Nat) (v : RFrame) : Heap :=
  h.map fun p => if p.1 = r then (r, v) else p

/-- A reference not yet used by the heap. -/
def freshRef (h : Heap) : Nat :=
  (h.map (·.1)).foldr max 0 + 1

/-- Execution of `orthonormal_rotation` (plot_data.py, lines 50-75) against
a heap: the caller's frame lives at reference `r0`; the result is the heap
after the call together with the reference of the returned frame. -/
def orthonormal_rotation_exec (h : Heap) (r0 : Nat) : Heap × Nat :=
  -- rotated_data_frame = data_frame.copy()
  let r1 := freshRef h
  let h1 : Heap := (r1, ((heapGet h r0).getD [])) :: h
  -- rotated_data_frame.rename(columns={'E1':'E2','E2':'E1'}, inplace=True)
  let h2 := heapSet h1 r1 (((heapGet h1 r1).getD []).map renameSwapE1E2)
  -- rotated_data_frame['Nu12'] = rotated['Nu12']*rotated['E1']/rotated['E2']
  let h3 := heapSet h2 r1 (((heapGet h2 r1).getD []).map rescaleNu12)
  -- data_frame = pd.concat([data_frame, rotated_data_frame], ...)
  let r2 := freshRef h3
  let h4 : Heap := (r2, ((heapGet h3 r0).getD []) ++ ((heapGet h3 r1).getD [])) :: h3
  (h4, r2)

/-! ## Density computation (plot_data.py, lines 95-106 and 196-197)

`stiff['rho'] = 1300E-6` and `compliant_dense['rho'] = 970E-6` come from
`create_baseline_materials`.  The script computes
`Density = (Stiff volume * stiff_rho
            + (Total volume - Stiff volume) * compliant_dense_rho)
           / Total volume`. -/

def stiff_rho : ℚ := 1300 / 1000000

def compliant_dense_rho : ℚ := 970 / 1000000

/-- The density formula of plot_data.py lines 196-197, over exact
rationals (used for the convex-combination property). -/
def density (stiff_volume total_volume : ℚ) : ℚ :=
  (stiff_volume * stiff_rho
    + (total_volume - stiff_volume) * compliant_dense_rho) / total_volume

/-- IEEE-754-style value for float results: a finite value (kept exact —
rounding is irrelevant to the finite/non-finite classification proved
here), an infinity of either sign, or NaN. -/
inductive PFloat where
  | fin (q : ℚ)
  | inf
  | ninf
  | nan
deriving DecidableEq, Repr

/-- `true` exactly on finite float values. -/
def PFloat.isFinite : PFloat → Bool
  | .fin _ => true
  | _ => false

/-- Float division of two finite values, with the numpy/IEEE rule for a
zero divisor: positive/0 = inf, negative/0 = -inf, 0/0 = NaN.  numpy
emits a RuntimeWarning in these cases but never raises. -/
def floatDiv (a b : ℚ) : PFloat :=
  if b = 0 then
    if 0 < a then .inf
    else if a < 0 then .ninf
    else .nan
  else .fin (a / b)

/-- The density computation of plot_data.py lines 196-197 under float
semantics: the numerator is finite; the final division follows
`floatDiv`. -/
def densityFloat (stiff_volume total_volume : ℚ) : PFloat :=
  floatDiv
    (stiff_volume * stiff_rho
      + (total_volume - stiff_volume) * compliant_dense_rho)
    total_volume

/-- A row of `data_to_plot` as seen by the density step: the two volume
columns, with the remaining columns carried opaquely. -/
structure VRow where
  stiffVolume : ℚ
  totalVolume : ℚ
  rest : List (String × ℚ)
deriving DecidableEq, Repr

/-- `data_to_plot['Density'] = ...` (plot_data.py, lines 196-197) as a
frame-level step: it never raises, it only computes the new column.  The
`Except` result records that no Python exception escapes this statement. -/
def addDensityColumn (rows : List VRow) : Except PyError (List (VRow × PFloat)) :=
  .ok (rows.map fun r => (r, densityFloat r.stiffVolume r.totalVolume))

/-! ## Manufacturing constraint (plot_data.py, lines 205-207)

`plotting_data_frame.loc[plotting_data_frame['Strut thickness [mm]'] < 0.5,
'Unit Cell'] = 'Violated'`.  A row of `plotting_data_frame` at this point:
the `Unit Cell` category, the strut-thickness column the mask reads, and
every other column carried in `others`. -/

structure PRow where
  unitCell : String
  strutThickness : ℚ
  others : List (String × ℚ)
deriving DecidableEq, Repr

/-- The `.loc[mask, 'Unit Cell'] = 'Violated'` assignment: each row whose
thickness is `< 0.5` has its `Unit Cell` field overwritten, all other rows
and all other fields are left as they are. -/
def applyManufacturingConstraint (rows : List PRow) : List PRow :=
  rows.map fun r =>
    if r.strutThickness < 1/2 then { r with unitCell := "Violated" } else r

/-! ## plotting_presets (plot_utilities.py, lines 25-72)

Only the `figure_type` dispatch can raise; the `plt.rc` styling calls
always succeed and carry no information the claims need.  The source's
`raise(ValueError, '...')` is a call-shaped raise of a tuple, which in
Python 3 produces `TypeError: exceptions must derive from BaseException`,
not a `ValueError`. -/

/-- Python's `str.lower()` on the ASCII selector strings used here:
character-wise lower-casing. -/
def pyLower (s : String) : String := .mk (s.data.map Char.toLower)

def plotting_presets (figure_type : String) : Except PyError Unit :=
  if pyLower figure_type = "publication" then .ok ()
  else if pyLower figure_type = "presentation" then .ok ()
  else .error (.typeError "exceptions must derive from BaseException")

/-- `true` exactly when the computation ended in a raised `ValueError`. -/
def raisedValueError : Except PyError Unit → Bool
  | .error (.valueError _) => true
  | _ => false

/-! ## draw_plot (plot_utilities.py, lines 75-162)

A row of the material dataframe: its `Category` plus the per-quantity
columns.  A missing column would be a pandas `KeyError`; the claims
settled here do not depend on the looked-up values, so the lookup defaults
to 0 instead of threading `KeyError`. -/

structure MRow where
  category : String
  cols : List (String × ℚ)
deriving DecidableEq, Repr

/-- Column access `material_data[name]` on one row. -/
def MRow.getCol (r : MRow) (c : String) : ℚ :=
  (r.cols.lookup c).getD 0

/-- The group keys of `data.groupby('Category')`: the distinct category
values.  (pandas sorts the keys; key order is irrelevant to the counting
properties proved below.) -/
def groupCategories (data : List MRow) : List String :=
  (data.map (·.category)).dedup

/-- The rows of one `groupby('Category')` group. -/
def groupRows (data : List MRow) (c : String) : List MRow :=
  data.filter fun r => r.category == c

/-- The plotting calls `draw_plot` can make: `draw_ellipses` for one row's
bounds, `ax.scatter` of a group's points, and `draw_hull` over a group's
point array (recorded with the array's row count). -/
inductive PlotEvent where
  | ellipse (xlo xhi ylo yhi : ℚ)
  | scatterPts (pts : List (ℚ × ℚ))
  | hull (npts : Nat)
deriving DecidableEq, Repr

def PlotEvent.isEllipse : PlotEvent → Bool
  | .ellipse _ _ _ _ => true
  | _ => false

def PlotEvent.isHull : PlotEvent → Bool
  | .hull _ => true
  | _ => false

/-- The `for category, material_data in data.groupby('Category')` loop of
`draw_plot`: per group, `ranges` mode draws one ellipse per row and then
one hull over the 2·n corner points; `values` mode draws one scatter and
then one hull over the n points; any other `data_type` reaches the
malformed `raise` before any drawing call of that iteration, aborting the
loop.  Returns the events emitted before the error, if any. -/
def runGroups (data : List MRow) (xq yq dt : String) :
    List String → List PlotEvent × Option PyError
  | [] => ([], none)
  | c :: cs =>
    let g := groupRows data c
    if dt = "ranges" then
      let evs := (g.map fun r =>
          PlotEvent.ellipse (r.getCol (xq ++ " low")) (r.getCol (xq ++ " high"))
            (r.getCol (yq ++ " low")) (r.getCol (yq ++ " high")))
        ++ [PlotEvent.hull (2 * g.length)]
      let rest := runGroups data xq yq dt cs
      (evs ++ rest.1, rest.2)
    else if dt = "values" then
      let evs := [PlotEvent.scatterPts (g.map fun r => (r.getCol xq, r.getCol yq)),
        PlotEvent.hull g.length]
      let rest := runGroups data xq yq dt cs
      (evs ++ rest.1, rest.2)
    else
      ([], some (.typeError "exceptions must derive from BaseException"))

/-- `draw_plot` (plot_utilities.py, lines 75-162): the groupby loop over
the distinct categories.  The result is the list of plotting calls made
and the Python exception, if one escaped. -/
def draw_plot (data : List MRow) (xq yq dt : String) :
    List PlotEvent × Option PyError :=
  runGroups data xq yq dt (groupCategories data)

/-! ## draw_guideline (plot_utilities.py, lines 211-282) -/

structure Guideline where
  power : ℤ
  x_lim : ℚ × ℚ
  y_intercept : ℚ
  string : String
  string_position : ℚ × ℚ
deriving DecidableEq, Repr

/-- `np.linspace(x_lim[0], x_lim[1], num_points)` with `num_points = 5`:
the i-th sample is `x_lim[0] + i*(x_lim[1]-x_lim[0])/4`. -/
def linspace5 (a b : ℚ) : List ℚ :=
  (List.range 5).map fun i => a + i * (b - a) / 4

/-- One `y_values[i]` sample: `y_intercept*x**power` when `log_flag`,
else `power*x + y_intercept` (plot_utilities.py, lines 257-261).  The
source's float exponent is modelled as an integer exponent, which covers
its documented uses. -/
def guidelineY (log_flag : Bool) (power : ℤ) (y_intercept x : ℚ) : ℚ :=
  if log_flag then y_intercept * x ^ power else (power : ℚ) * x + y_intercept

/-- `draw_guideline` (plot_utilities.py, lines 211-282): the x-samples and
y-samples of the dashed polyline it plots. -/
def draw_guideline (g : Guideline) (log_flag : Bool) : List ℚ × List ℚ :=
  let x_values := linspace5 g.x_lim.1 g.x_lim.2
  (x_values, x_values.map (guidelineY log_flag g.power g.y_intercept))

/-! ## Scatter-matrix loop (plot_data.py, lines 244-309)

At this point `plotting_data_frame.columns` is
`['Unit Cell','E1','E2','G12','Nu12']`; cell `(i, j)` of the 4×4 grid
plots `columns[i+1]` and `columns[j+1]`. -/

def plotColumns : List String := ["Unit Cell", "E1", "E2", "G12", "Nu12"]

def colAt (k : Nat) : String := plotColumns.getD k ""

/-- What one cell of the 4×4 grid renders. -/
inductive CellSpec where
  | kde (column : String) (logScale : Bool)
  | hidden
  | scatterCell (xcol ycol : String) (xlog ylog : Bool)
deriving DecidableEq, Repr

/-- The body of the double loop of plot_data.py lines 246-309: diagonal
cells call `sns.kdeplot` with `log_scale` set by the column-name test;
upper-triangle cells are hidden via `ax.set_visible(False)`; the rest
call `sns.scatterplot` and then set each axis to log scale according to
the same column-name test. -/
def cellRender (i j : Fin 4) : CellSpec :=
  if i = j then
    CellSpec.kde (colAt (i.1 + 1))
      (if colAt (i.1 + 1) == "Nu12" then false else true)
  else if i < j then
    CellSpec.hidden
  else
    CellSpec.scatterCell (colAt (j.1 + 1)) (colAt (i.1 + 1))
      (if colAt (j.1 + 1) == "Nu12" then false else true)
      (if colAt (i.1 + 1) == "Nu12" then false else true)

/-! ## Script tail after the figure is drawn (plot_data.py, lines 393-419)

The statements after the figure is laid out: save the SVG, the bare
expression statement `BREAK` (line 400), resize, save the PNG, and the
median-printing loop.  Evaluating a name not bound in the script's
namespace raises `NameError`.  (Paths are modelled relative to the
working directory.) -/

inductive Step where
  | saveFig (path : String)
  | evalName (n : String)
  | setSizeInches (w h : ℚ)
  | printMedians
deriving DecidableEq, Repr

/-- The statement sequence of plot_data.py lines 393-419 for the
configured `material = 'foamed elastomer'` (line 133). -/
def scriptTail (material : String) : List Step :=
  [ .saveFig ("output_images/" ++ material ++ "unit_cell.svg"),
    .evalName "BREAK",
    .setSizeInches 6 6,
    .saveFig ("output_images/" ++ material ++ "unit_cell.png"),
    .printMedians ]

/-- Sequential execution: each step runs in order; evaluating a name that
is not bound raises `NameError` and aborts the run.  Returns the steps
that executed and the exception, if any. -/
def runSteps (env : List String) : List Step → List Step × Option PyError
  | [] => ([], none)
  | s :: rest =>
    match s with
    | .evalName n =>
      if env.contains n then
        let r := runSteps env rest
        (s :: r.1, r.2)
      else
        ([], some (.nameError n))
    | _ =>
      let r := runSteps env rest
      (s :: r.1, r.2)

/-- Every name bound in plot_data.py's module namespace before line 400:
the imports (lines 12-21), the three function definitions, and each name
assigned in the `__main__` block (including loop variables).  `BREAK` is
never assigned anywhere in the file. -/
def mainDefinedNames : List String :=
  [ "pickle", "os", "pd", "np", "mpl", "plt", "patches", "sns",
    "plotting_presets", "orthonormal_rotation", "create_baseline_materials",
    "stiff", "compliant_dense", "compliant_foam", "null_material",
    "material", "manufacturing_constraints", "OV_file_names", "DV_file_names",
    "counter", "OV_file_name", "DV_file_name", "OV_file", "DV_file",
    "OV_data_frame", "DV_data_frame", "merged_data", "data_to_plot",
    "plotting_data_frame", "colors", "compliant_material", "outlier_data",
    "fig", "axes", "i", "axs", "j", "ax", "log_flag", "y_log_flag",
    "x_log_flag", "axes_labels", "columns", "material_dict" ]

/-- The run of the script tail with the module namespace as it stands at
line 393. -/
def mainTailRun : List Step × Option PyError :=
  runSteps mainDefinedNames (scriptTail "foamed elastomer")

/-! ## Theorems -/

/-- Claim C1: `orthonormal_rotation` returns a frame with exactly twice as
many rows, and the rotated counterpart of original row `i` (output row
`n + i`) has the two moduli swapped and its coupling ratio equal to the
original ratio times the ratio of the counterpart's `E1` and `E2` columns
(equivalently, times original `E2`/`E1`); all other columns are copied
unchanged. -/
theorem orthonormal_rotation_spec (df : RFrame) :
    (orthonormal_rotation df).length = 2 * df.length ∧
    ∀ i (h : i < df.length) (h2 : df.length + i < (orthonormal_rotation df).length),
      (((orthonormal_rotation df).get ⟨df.length + i, h2⟩).e1 = (df.get ⟨i, h⟩).e2) ∧
      (((orthonormal_rotation df).get ⟨df.length + i, h2⟩).e2 = (df.get ⟨i, h⟩).e1) ∧
      (((orthonormal_rotation df).get ⟨df.length + i, h2⟩).nu12 =
        (df.get ⟨i, h⟩).nu12 *
          (((orthonormal_rotation df).get ⟨df.length + i, h2⟩).e1 /
            ((orthonormal_rotation df).get ⟨df.length + i, h2⟩).e2)) ∧
      (((orthonormal_rotation df).get ⟨df.length + i, h2⟩).nu12 =
        (df.get ⟨i, h⟩).nu12 * (df.get ⟨i, h⟩).e2 / (df.get ⟨i, h⟩).e1) ∧
      (((orthonormal_rotation df).get ⟨df.length + i, h2⟩).rest = (df.get ⟨i, h⟩).rest) := by
  constructor
  · simp [orthonormal_rotation]
    ring
  · intro i h h2
    have hrot : (orthonormal_rotation df).get ⟨df.length + i, h2⟩
        = rotateRow (df.get ⟨i, h⟩) := by
      simp only [orthonormal_rotation, List.get_eq_getElem]
      rw [List.getElem_append_right (by omega)]
      simp [List.getElem_map]
    rw [hrot]
    refine ⟨rfl, rfl, ?_, rfl, rfl⟩
    show (df.get ⟨i, h⟩).nu12 * (df.get ⟨i, h⟩).e2 / (df.get ⟨i, h⟩).e1
      = (df.get ⟨i, h⟩).nu12 * ((df.get ⟨i, h⟩).e2 / (df.get ⟨i, h⟩).e1)
    rw [mul_div_assoc]

/-- Witness for C1 at a one-row frame: the counterpart of row 0 sits at
index 1, has `E1 = 3` and `Nu12 = 5·3/2`. -/
theorem orthonormal_rotation_spec_witness :
    ((orthonormal_rotation [RRow.mk 2 3 5 []]).get ⟨1, by decide⟩).e1 = 3 ∧
    ((orthonormal_rotation [RRow.mk 2 3 5 []]).get ⟨1, by decide⟩).nu12 = 5 * 3 / 2 := by
  have h := (orthonormal_rotation_spec [RRow.mk 2 3 5 []]).2 0 (by decide) (by decide)
  constructor
  · simpa using h.1
  · simpa using h.2.2.2.1

/-! ### Heap lemmas for claim C10 -/

/-- The references allocated in a heap. -/
def heapKeys (h : Heap) : List Nat := h.map (·.1)

theorem mem_le_foldr_max (l : List Nat) : ∀ r ∈ l, r ≤ l.foldr max 0 := by
  induction l with
  | nil => intro r hr; cases hr
  | cons a t ih =>
    intro r hr
    rcases List.mem_cons.mp hr with rfl | hr
    · exact le_max_left _ _
    · exact le_trans (ih r hr) (le_max_right _ _)

theorem mem_keys_of_heapGet {h : Heap} {r : Nat} {F : RFrame}
    (hl : heapGet h r = some F) : r ∈ heapKeys h := by
  induction h with
  | nil => simp [heapGet] at hl
  | cons p t ih =>
    rw [show (p :: t : Heap) = (p.1, p.2) :: t from rfl, heapGet] at hl
    by_cases hrk : r = p.1
    · exact hrk ▸ List.mem_cons_self _ _
    · rw [if_neg hrk] at hl
      exact List.mem_cons_of_mem _ (ih hl)

theorem heapGet_lt_freshRef {h : Heap} {r : Nat} {F : RFrame}
    (hl : heapGet h r = some F) : r < freshRef h :=
  Nat.lt_succ_of_le (mem_le_foldr_max _ _ (mem_keys_of_heapGet hl))

theorem heapGet_cons_ne (h : Heap) (k r : Nat) (v : RFrame) (hne : r ≠ k) :
    heapGet ((k, v) :: h) r = heapGet h r := by
  rw [heapGet, if_neg hne]

theorem heapGet_cons_self (h : Heap) (k : Nat) (v : RFrame) :
    heapGet ((k, v) :: h) k = some v := by
  rw [heapGet, if_pos rfl]

theorem heapSet_cons (k : Nat) (w : RFrame) (t : Heap) (r : Nat) (v : RFrame) :
    heapSet ((k, w) :: t) r v
      = (if k = r then (r, v) else (k, w)) :: heapSet t r v := by
  simp only [heapSet, List.map_cons]

theorem heapGet_heapSet_ne (h : Heap) (r r' : Nat) (v : RFrame) (hne : r' ≠ r) :
    heapGet (heapSet h r v) r' = heapGet h r' := by
  induction h with
  | nil => rfl
  | cons p t ih =>
    obtain ⟨k, w⟩ := p
    rw [heapSet_cons]
    by_cases hp : k = r
    · rw [if_pos hp, heapGet_cons_ne _ _ _ _ hne,
        heapGet_cons_ne _ _ _ _ (fun hc => hne (hc.trans hp)), ih]
    · rw [if_neg hp]
      by_cases hq : r' = k
      · subst hq
        rw [heapGet_cons_self, heapGet_cons_self]
      · rw [heapGet_cons_ne _ _ _ _ hq, heapGet_cons_ne _ _ _ _ hq, ih]

theorem heapGet_heapSet_self {h : Heap} {r : Nat} {F : RFrame} (v : RFrame)
    (hl : heapGet h r = some F) : heapGet (heapSet h r v) r = some v := by
  induction h with
  | nil => simp [heapGet] at hl
  | cons p t ih =>
    obtain ⟨k, w⟩ := p
    rw [heapSet_cons]
    by_cases hp : k = r
    · rw [if_pos hp, heapGet_cons_self]
    · rw [heapGet_cons_ne _ _ _ _ (fun hc => hp hc.symm)] at hl
      rw [if_neg hp, heapGet_cons_ne _ _ _ _ (fun hc => hp hc.symm)]
      exact ih hl

/-- Claim C10: `orthonormal_rotation` does not mutate the caller's frame:
after the call the object at the caller's reference is unchanged, and the
returned reference holds the concatenation of the original frame with its
rotated copy. -/
theorem orthonormal_rotation_exec_no_mutation (h : Heap) (r0 : Nat) (F : RFrame)
    (h0 : heapGet h r0 = some F) :
    heapGet (orthonormal_rotation_exec h r0).1 r0 = some F ∧
    heapGet (orthonormal_rotation_exec h r0).1 (orthonormal_rotation_exec h r0).2
      = some (orthonormal_rotation F) := by
  have hr1 : r0 ≠ freshRef h := Nat.ne_of_lt (heapGet_lt_freshRef h0)
  simp only [orthonormal_rotation_exec]
  set r1 := freshRef h with hr1def
  set h1 : Heap := (r1, ((heapGet h r0).getD [])) :: h with hh1
  have h1r0 : heapGet h1 r0 = some F := by
    rw [hh1, heapGet_cons_ne _ _ _ _ hr1]
    exact h0
  have h1r1 : heapGet h1 r1 = some F := by
    rw [hh1, h0, heapGet_cons_self]
    rfl
  set v2 := ((heapGet h1 r1).getD []).map renameSwapE1E2 with hv2
  set h2 := heapSet h1 r1 v2 with hh2
  have h2r0 : heapGet h2 r0 = some F := by
    rw [hh2, heapGet_heapSet_ne _ _ _ _ hr1]
    exact h1r0
  have h2r1 : heapGet h2 r1 = some (F.map renameSwapE1E2) := by
    rw [hh2, heapGet_heapSet_self v2 h1r1, hv2, h1r1]
    rfl
  set v3 := ((heapGet h2 r1).getD []).map rescaleNu12 with hv3
  set h3 := heapSet h2 r1 v3 with hh3
  have h3r0 : heapGet h3 r0 = some F := by
    rw [hh3, heapGet_heapSet_ne _ _ _ _ hr1]
    exact h2r0
  have h3r1 : heapGet h3 r1 = some ((F.map renameSwapE1E2).map rescaleNu12) := by
    rw [hh3, heapGet_heapSet_self v3 h2r1, hv3, h2r1]
    rfl
  have hr2 : r0 ≠ freshRef h3 := Nat.ne_of_lt (heapGet_lt_freshRef h3r0)
  constructor
  · rw [heapGet_cons_ne _ _ _ _ hr2]
    exact h3r0
  · rw [h3r0, h3r1, heapGet_cons_self]
    simp only [Option.getD_some]
    rw [List.map_map]
    rfl

/-- Witness for C10 at a concrete one-reference heap holding a one-row
frame. -/
theorem orthonormal_rotation_exec_no_mutation_witness :
    heapGet (orthonormal_rotation_exec [(0, [RRow.mk 2 3 5 []])] 0).1 0
      = some [RRow.mk 2 3 5 []] :=
  (orthonormal_rotation_exec_no_mutation [(0, [RRow.mk 2 3 5 []])] 0
    [RRow.mk 2 3 5 []] (by rfl)).1

/-- Claim C2: for positive total volume and a volume fraction in `[0, 1]`,
the computed density is a convex combination of the two constituent
densities, hence lies between them (inclusive). -/
theorem density_convex (sv tv : ℚ) (htv : 0 < tv)
    (hlo : 0 ≤ sv / tv) (hhi : sv / tv ≤ 1) :
    compliant_dense_rho ≤ density sv tv ∧ density sv tv ≤ stiff_rho := by
  have htv0 : tv ≠ 0 := ne_of_gt htv
  have hsv0 : 0 ≤ sv := by
    have := mul_nonneg hlo (le_of_lt htv)
    rwa [div_mul_cancel₀ sv htv0] at this
  have hsvtv : sv ≤ tv := (div_le_one htv).mp hhi
  rw [density, stiff_rho, compliant_dense_rho] at *
  rw [le_div_iff₀ htv, div_le_iff₀ htv]
  constructor <;> nlinarith

/-- Witness for C2 at `Stiff volume = 1`, `Total volume = 2`. -/
theorem density_convex_witness :
    compliant_dense_rho ≤ density 1 2 ∧ density 1 2 ≤ stiff_rho :=
  density_convex 1 2 (by norm_num) (by norm_num) (by norm_num)

/-- Claim C8: when a row's total volume is zero, the density step raises
no exception; the division produces a non-finite value (Inf, -Inf or NaN)
that is stored in the Density column. -/
theorem density_zero_volume_silent (rows : List VRow) :
    (∃ out, addDensityColumn rows = .ok out ∧
      out = rows.map fun r => (r, densityFloat r.stiffVolume r.totalVolume)) ∧
    ∀ r ∈ rows, r.totalVolume = 0 →
      (densityFloat r.stiffVolume r.totalVolume).isFinite = false := by
  refine ⟨⟨_, rfl, rfl⟩, ?_⟩
  intro r _ hzero
  rw [densityFloat, hzero, floatDiv, if_pos rfl]
  by_cases hpos : 0 < r.stiffVolume * stiff_rho
      + ((0 : ℚ) - r.stiffVolume) * compliant_dense_rho
  · rw [if_pos hpos]
    rfl
  · rw [if_neg hpos]
    by_cases hneg : r.stiffVolume * stiff_rho
        + ((0 : ℚ) - r.stiffVolume) * compliant_dense_rho < 0
    · rw [if_pos hneg]
      rfl
    · rw [if_neg hneg]
      rfl

/-- Witness for C8 at a row with `Stiff volume = 1`, `Total volume = 0`:
the stored Density value is non-finite (here `+Inf`). -/
theorem density_zero_volume_silent_witness :
    (densityFloat (1 : ℚ) 0).isFinite = false :=
  (density_zero_volume_silent [VRow.mk 1 0 []]).2 (VRow.mk 1 0 [])
    (List.mem_singleton.mpr rfl) rfl

/-- Claim C3: the manufacturing-constraint step relabels exactly the rows
whose strut thickness is strictly below 0.5 to the `Violated` category,
leaves every other row's category unchanged, and modifies no other field
of any row. -/
theorem manufacturing_constraint_spec (rows : List PRow) :
    (applyManufacturingConstraint rows).length = rows.length ∧
    ∀ i (h : i < rows.length)
      (h2 : i < (applyManufacturingConstraint rows).length),
      ((rows.get ⟨i, h⟩).strutThickness < 1/2 →
        ((applyManufacturingConstraint rows).get ⟨i, h2⟩).unitCell = "Violated") ∧
      (¬ (rows.get ⟨i, h⟩).strutThickness < 1/2 →
        ((applyManufacturingConstraint rows).get ⟨i, h2⟩).unitCell
          = (rows.get ⟨i, h⟩).unitCell) ∧
      ((applyManufacturingConstraint rows).get ⟨i, h2⟩).strutThickness
        = (rows.get ⟨i, h⟩).strutThickness ∧
      ((applyManufacturingConstraint rows).get ⟨i, h2⟩).others
        = (rows.get ⟨i, h⟩).others := by
  constructor
  · simp [applyManufacturingConstraint]
  · intro i h h2
    have hget : (applyManufacturingConstraint rows).get ⟨i, h2⟩
        = if (rows.get ⟨i, h⟩).strutThickness < 1/2 then
            { rows.get ⟨i, h⟩ with unitCell := "Violated" }
          else rows.get ⟨i, h⟩ := by
      simp only [applyManufacturingConstraint, List.get_eq_getElem, List.getElem_map]
    rw [hget]
    by_cases hc : (rows.get ⟨i, h⟩).strutThickness < 1/2
    · rw [if_pos hc]
      exact ⟨fun _ => rfl, fun hn => absurd hc hn, rfl, rfl⟩
    · rw [if_neg hc]
      exact ⟨fun hy => absurd hy hc, fun _ => rfl, rfl, rfl⟩

/-- Witness for C3 on a concrete two-row frame: the thin row is relabeled
`Violated` with its thickness intact, the thick row keeps its category. -/
theorem manufacturing_constraint_spec_witness :
    ((applyManufacturingConstraint
        [PRow.mk "Chiral" (1/4) [], PRow.mk "Lattice" 1 []]).get
      ⟨0, by decide⟩).unitCell = "Violated" ∧
    ((applyManufacturingConstraint
        [PRow.mk "Chiral" (1/4) [], PRow.mk "Lattice" 1 []]).get
      ⟨1, by decide⟩).unitCell = "Lattice" := by
  have h0 := (manufacturing_constraint_spec
    [PRow.mk "Chiral" (1/4) [], PRow.mk "Lattice" 1 []]).2 0 (by decide) (by decide)
  have h1 := (manufacturing_constraint_spec
    [PRow.mk "Chiral" (1/4) [], PRow.mk "Lattice" 1 []]).2 1 (by decide) (by decide)
  constructor
  · exact h0.1 (by norm_num)
  · have := h1.2.1 (by norm_num)
    simpa using this

/-- Claim C5: `draw_guideline` computes exactly 5 evenly spaced x-samples
spanning the x-limits; each y-sample is `y_intercept·x^power` when
`log_flag` is set, else `power·x + y_intercept`; and with `log_flag=True`,
`power=1`, `y_intercept=1`, `x_lim=[1,10]` the y-samples equal the
x-samples. -/
theorem draw_guideline_spec (p : ℤ) (a b yint : ℚ) (s : String) (sp : ℚ × ℚ)
    (log_flag : Bool) :
    (draw_guideline ⟨p, (a, b), yint, s, sp⟩ log_flag).1
      = [a, a + (b - a)/4, a + 2*((b - a)/4), a + 3*((b - a)/4), b] ∧
    (draw_guideline ⟨p, (a, b), yint, s, sp⟩ log_flag).2
      = ((draw_guideline ⟨p, (a, b), yint, s, sp⟩ log_flag).1).map
          (fun x => if log_flag then yint * x ^ p else (p : ℚ) * x + yint) ∧
    (draw_guideline ⟨1, (1, 10), 1, s, sp⟩ true).2
      = (draw_guideline ⟨1, (1, 10), 1, s, sp⟩ true).1 := by
  refine ⟨?_, rfl, ?_⟩
  · show (List.range 5).map (fun i : ℕ => a + (i : ℚ) * (b - a) / 4) = _
    rw [show List.range 5 = [0, 1, 2, 3, 4] from rfl]
    simp only [List.map_cons, List.map_nil, List.cons.injEq, and_true]
    refine ⟨by push_cast; ring, by push_cast; ring, by push_cast; ring,
      by push_cast; ring, by push_cast; ring⟩
  · show (linspace5 1 10).map (guidelineY true 1 1) = linspace5 1 10
    have hy : guidelineY true 1 1 = id := funext fun x => by simp [guidelineY]
    rw [hy, List.map_id]

/-- Counterexample to claim C6 as stated: for the unrecognized selector
`"sketch"` the raised exception is not a `ValueError` (the malformed
`raise(ValueError, ...)` raises a tuple, so Python raises `TypeError`). -/
theorem plotting_presets_not_valueError :
    raisedValueError (plotting_presets "sketch") = false := by
  decide

/-- Claim C6 (amended): `plotting_presets` completes without error on the
two recognized selectors matched case-insensitively, and on any other
selector it raises an error — a `TypeError` (the `raise` is malformed: it
raises a tuple, not a `ValueError`). -/
theorem plotting_presets_dispatch (s : String) :
    (pyLower s = "publication" ∨ pyLower s = "presentation" →
      plotting_presets s = .ok ()) ∧
    (pyLower s ≠ "publication" → pyLower s ≠ "presentation" →
      plotting_presets s
        = .error (.typeError "exceptions must derive from BaseException")) := by
  constructor
  · rintro (h | h) <;> simp [plotting_presets, h]
  · intro h1 h2
    simp [plotting_presets, h1, h2]

/-- Witness for C6 (amended) at the selectors `"PubLicAtion"` (accepted
case-insensitively) and `"sketch"` (rejected with a `TypeError`). -/
theorem plotting_presets_dispatch_witness :
    plotting_presets "PubLicAtion" = .ok () ∧
    plotting_presets "sketch"
      = .error (.typeError "exceptions must derive from BaseException") :=
  ⟨(plotting_presets_dispatch "PubLicAtion").1 (Or.inl (by decide)),
    (plotting_presets_dispatch "sketch").2 (by decide) (by decide)⟩

/-- Claim C7: in the 4×4 scatter-matrix grid, every diagonal cell renders
a per-category kernel density estimate, every upper-triangle cell is
hidden, every lower-triangle cell renders a per-category scatter, and
every axis is log-scaled exactly when its column is not `Nu12`. -/
theorem scatter_matrix_cells (i j : Fin 4) :
    (i = j → cellRender i j
      = CellSpec.kde (colAt (i.1 + 1)) (decide (colAt (i.1 + 1) ≠ "Nu12"))) ∧
    (i < j → cellRender i j = CellSpec.hidden) ∧
    (j < i → cellRender i j
      = CellSpec.scatterCell (colAt (j.1 + 1)) (colAt (i.1 + 1))
          (decide (colAt (j.1 + 1) ≠ "Nu12"))
          (decide (colAt (i.1 + 1) ≠ "Nu12"))) := by
  revert i j
  decide

/-- Witness for C7 at concrete cells: `(0,0)` is a log-scaled KDE of `E1`,
`(3,3)` is a linear KDE of `Nu12`, `(0,1)` is hidden, `(1,0)` is a
log-log scatter of `E1` against `E2`. -/
theorem scatter_matrix_cells_witness :
    cellRender 0 0 = CellSpec.kde "E1" true ∧
    cellRender 3 3 = CellSpec.kde "Nu12" false ∧
    cellRender 0 1 = CellSpec.hidden ∧
    cellRender 1 0 = CellSpec.scatterCell "E1" "E2" true true := by
  refine ⟨?_, ?_, ?_, ?_⟩
  · rw [(scatter_matrix_cells 0 0).1 rfl]
    decide
  · rw [(scatter_matrix_cells 3 3).1 rfl]
    decide
  · exact (scatter_matrix_cells 0 1).2.1 (by decide)
  · rw [(scatter_matrix_cells 1 0).2.2 (by decide)]
    decide

/-- Claim C9: running the statements after the figure is drawn, the SVG
save succeeds and is immediately followed by a `NameError` on the
undefined name `BREAK`; the PNG save and the median printing never
execute, so no PNG file is written. -/
theorem main_tail_break :
    mainTailRun = ([Step.saveFig "output_images/foamed elastomerunit_cell.svg"],
      some (PyError.nameError "BREAK")) ∧
    Step.saveFig "output_images/foamed elastomerunit_cell.png" ∉ mainTailRun.1 ∧
    Step.printMedians ∉ mainTailRun.1 := by
  refine ⟨?_, ?_, ?_⟩ <;> decide

/-! ### Counting lemmas for claim C4 -/

/-- Number of `draw_ellipses` calls in a trace. -/
def countEllipses (evs : List PlotEvent) : Nat := evs.countP PlotEvent.isEllipse

/-- Number of `draw_hull` calls in a trace. -/
def countHulls (evs : List PlotEvent) : Nat := evs.countP PlotEvent.isHull

theorem runGroups_ranges_spec (data : List MRow) (xq yq : String)
    (keys : List String) :
    (runGroups data xq yq "ranges" keys).2 = none ∧
    countEllipses (runGroups data xq yq "ranges" keys).1
      = (keys.map fun c => (groupRows data c).length).sum ∧
    countHulls (runGroups data xq yq "ranges" keys).1 = keys.length := by
  induction keys with
  | nil =>
    refine ⟨rfl, rfl, rfl⟩
  | cons c cs ih =>
    obtain ⟨ih1, ih2, ih3⟩ := ih
    have hstep : runGroups data xq yq "ranges" (c :: cs)
        = ((((groupRows data c).map fun r =>
              PlotEvent.ellipse (r.getCol (xq ++ " low")) (r.getCol (xq ++ " high"))
                (r.getCol (yq ++ " low")) (r.getCol (yq ++ " high")))
            ++ [PlotEvent.hull (2 * (groupRows data c).length)])
            ++ (runGroups data xq yq "ranges" cs).1,
          (runGroups data xq yq "ranges" cs).2) := by
      rw [runGroups]
      simp
    rw [hstep]
    have ih2' : List.countP PlotEvent.isEllipse (runGroups data xq yq "ranges" cs).1
        = (cs.map fun c => (groupRows data c).length).sum := ih2
    have ih3' : List.countP PlotEvent.isHull (runGroups data xq yq "ranges" cs).1
        = cs.length := ih3
    have hmapE : List.countP PlotEvent.isEllipse ((groupRows data c).map fun r =>
        PlotEvent.ellipse (r.getCol (xq ++ " low")) (r.getCol (xq ++ " high"))
          (r.getCol (yq ++ " low")) (r.getCol (yq ++ " high")))
        = (groupRows data c).length := by
      rw [List.countP_map]
      exact congrFun List.countP_true (groupRows data c)
    have hmapH : List.countP PlotEvent.isHull ((groupRows data c).map fun r =>
        PlotEvent.ellipse (r.getCol (xq ++ " low")) (r.getCol (xq ++ " high"))
          (r.getCol (yq ++ " low")) (r.getCol (yq ++ " high")))
        = 0 := by
      rw [List.countP_map]
      exact congrFun List.countP_false (groupRows data c)
    refine ⟨ih1, ?_, ?_⟩
    · show List.countP PlotEvent.isEllipse _ = _
      rw [List.countP_append, List.countP_append, hmapE, ih2',
        show List.countP PlotEvent.isEllipse
          [PlotEvent.hull (2 * (groupRows data c).length)] = 0 from rfl]
      simp only [List.map_cons, List.sum_cons]
      omega
    · show List.countP PlotEvent.isHull _ = _
      rw [List.countP_append, List.countP_append, hmapH, ih3',
        show List.countP PlotEvent.isHull
          [PlotEvent.hull (2 * (groupRows data c).length)] = 1 from rfl]
      simp only [List.length_cons]
      omega

theorem runGroups_invalid_spec (data : List MRow) (xq yq dt : String)
    (h1 : dt ≠ "ranges") (h2 : dt ≠ "values") (keys : List String) :
    (runGroups data xq yq dt keys).1 = [] ∧
    (runGroups data xq yq dt keys).2
      = if keys = [] then none
        else some (.typeError "exceptions must derive from BaseException") := by
  cases keys with
  | nil => exact ⟨rfl, rfl⟩
  | cons c cs =>
    rw [runGroups]
    simp [h1, h2]

theorem sum_groupRows_length (data : List MRow) :
    ((groupCategories data).map fun c => (groupRows data c).length).sum
      = data.length := by
  have h1 : (fun c => (groupRows data c).length)
      = fun c => (data.map (·.category)).count c := by
    funext c
    rw [groupRows, ← List.countP_eq_length_filter, List.count_eq_countP,
      List.countP_map]
    rfl
  rw [groupCategories, h1, List.sum_map_count_dedup_eq_length, List.length_map]

/-- Counterexample to claim C4 as stated: on a dataframe with no rows and
a `data_type` outside the two recognized values, `draw_plot` completes
without error — the groupby loop has no groups, so the malformed `raise`
is never reached and the function does not fail. -/
theorem draw_plot_empty_invalid_no_failure :
    draw_plot ([] : List MRow) "Young Modulus" "Density" "bogus" = ([], none) :=
  rfl

/-- Claim C4 (amended): with `data_type='ranges'`, `draw_plot` calls the
ellipse routine exactly once per row (summed over the category groups)
and the hull routine exactly once per category group, and raises nothing;
with any `data_type` outside `ranges`/`values` it makes no ellipse,
scatter or hull call, and it fails — on the first category group — if and
only if the dataframe has at least one row (on an empty frame the groupby
loop body never runs and no error is raised). -/
theorem draw_plot_spec (data : List MRow) (xq yq : String) :
    ((draw_plot data xq yq "ranges").2 = none ∧
      countEllipses (draw_plot data xq yq "ranges").1 = data.length ∧
      countHulls (draw_plot data xq yq "ranges").1
        = (groupCategories data).length) ∧
    ∀ dt : String, dt ≠ "ranges" → dt ≠ "values" →
      (draw_plot data xq yq dt).1 = [] ∧
      (data = [] → (draw_plot data xq yq dt).2 = none) ∧
      (data ≠ [] → (draw_plot data xq yq dt).2
        = some (.typeError "exceptions must derive from BaseException")) := by
  constructor
  · obtain ⟨ha, hb, hc⟩ := runGroups_ranges_spec data xq yq (groupCategories data)
    exact ⟨ha, by rw [draw_plot, hb, sum_groupRows_length], by rw [draw_plot, hc]⟩
  · intro dt h1 h2
    obtain ⟨ha, hb⟩ := runGroups_invalid_spec data xq yq dt h1 h2 (groupCategories data)
    refine ⟨ha, ?_, ?_⟩
    · intro hnil
      rw [draw_plot, hb, if_pos (by simp [groupCategories, hnil])]
    · intro hne
      rw [draw_plot, hb, if_neg ?_]
      simp only [groupCategories, ne_eq, List.dedup_eq_nil, List.map_eq_nil_iff]
      exact hne

/-- Witness for C4 (amended) on a concrete two-row, one-category frame:
`ranges` mode makes two ellipse calls and one hull call without failing,
and an invalid `data_type` makes no plotting call and fails with the
(malformed-raise) `TypeError`. -/
theorem draw_plot_spec_witness :
    countEllipses (draw_plot [MRow.mk "Metals" [], MRow.mk "Metals" []]
      "Young Modulus" "Density" "ranges").1 = 2 ∧
    countHulls (draw_plot [MRow.mk "Metals" [], MRow.mk "Metals" []]
      "Young Modulus" "Density" "ranges").1 = 1 ∧
    (draw_plot [MRow.mk "Metals" [], MRow.mk "Metals" []]
      "Young Modulus" "Density" "bogus").1 = [] ∧
    (draw_plot [MRow.mk "Metals" [], MRow.mk "Metals" []]
      "Young Modulus" "Density" "bogus").2
      = some (.typeError "exceptions must derive from BaseException") := by
  have h := draw_plot_spec [MRow.mk "Metals" [], MRow.mk "Metals" []]
    "Young Modulus" "Density"
  have hinv := h.2 "bogus" (by decide) (by decide)
  refine ⟨?_, ?_, hinv.1, hinv.2.2 (by decide)⟩
  · rw [h.1.2.1]
    rfl
  · rw [h.1.2.2]
    decide

end AshbyPlots
